import Mathlib

/-!
# Verification of the gotcha request wrapper

A shallow embedding of the gotcha library (a typed wrapper around the undici
HTTP client).  The embedded fragments are:

* `src/types.ts` — the option and response shapes;
* `src/request.ts` (the timeout-aware variant) — the request executor: timeout
  validation, timer/abort-controller setup, signal composition, the status-code
  classifier and the timeout attribution in the catch handler;
* `src/type-guards/isUrlObject.ts`, `isGotchaRequest.ts`, `src/gotcha.ts` — the
  dispatcher and its argument classification;
* `src/type-guards/*.ts` and `isOk` — the predicate helpers.

The transport (undici's `request`) and wall-clock time are external
collaborators: one call's interaction with them is captured by an environment
value `Env` giving the transport's outcome, the two clock readings the code
takes, and whether the armed timer fires while the transport call is pending.
The executor is embedded as a pure function of its arguments and that
environment, paired with a `Trace` recording the observable effects (timer
armed/cleared, controller creation, options handed to the transport).
-/

namespace Gotcha

/-- A JavaScript number: `NaN`, a signed infinity, or a finite value
(modelled as a rational; the embedded code only compares and prints them). -/
inductive JSNum where
  | nan : JSNum
  | inf (pos : Bool) : JSNum
  | fin (q : ℚ) : JSNum
deriving DecidableEq

/-- A JavaScript runtime value, as far as the embedded code inspects one.
`obj` is an opaque reference to some object (objects are always truthy). -/
inductive JSVal where
  | undefined : JSVal
  | null : JSVal
  | bool (b : Bool) : JSVal
  | num (n : JSNum) : JSVal
  | str (s : String) : JSVal
  | obj (id : ℕ) : JSVal
deriving DecidableEq

/-- JavaScript truthiness: `undefined`, `null`, `false`, `0`, `NaN` and the
empty string are falsy; every other value is truthy. -/
def JSVal.truthy : JSVal → Bool
  | .undefined => false
  | .null => false
  | .bool b => b
  | .num .nan => false
  | .num (.inf _) => true
  | .num (.fin q) => decide (q ≠ 0)
  | .str s => decide (s ≠ "")
  | .obj _ => true

/-- Rendering of a JavaScript number by string interpolation.  Integer-valued
finite numbers print exactly as in JavaScript; for non-integer rationals we
use the rational's own rendering (a modelling approximation — the claims only
ever print integer-valued numbers). -/
def jsNumToString : JSNum → String
  | .nan => "NaN"
  | .inf true => "Infinity"
  | .inf false => "-Infinity"
  | .fin q => if q.den = 1 then toString q.num else toString q

/-- JavaScript template-literal interpolation of a value. -/
def jsTemplate : JSVal → String
  | .undefined => "undefined"
  | .null => "null"
  | .bool b => if b then "true" else "false"
  | .num n => jsNumToString n
  | .str s => s
  | .obj _ => "[object Object]"

/-- Models the JavaScript expression `x || undefined`. -/
def orUndefined (v : JSVal) : JSVal := if v.truthy then v else .undefined

/-- Models the JavaScript expression `a || b`. -/
def jsOr (a b : JSVal) : JSVal := if a.truthy then a else b

/-! ## The timeout validity check (src/request.ts line 184)

`timeout` has TypeScript type `number | undefined`; we model it as
`Option JSNum` (`none` = absent/undefined).  Each helper below models one
conjunct of `timeout && timeout > 0 && Number.isFinite(timeout) &&
timeout <= 2147483647`, with JavaScript's coercion rules. -/

/-- The platform timer maximum (2^31 − 1 milliseconds). -/
def timerMax : ℚ := 2147483647

/-- Truthiness of the `timeout` variable: absent, `NaN` and `0` are falsy. -/
def jsNumTruthy : Option JSNum → Bool
  | none => false
  | some .nan => false
  | some (.inf _) => true
  | some (.fin q) => decide (q ≠ 0)

/-- `timeout > 0` with JavaScript comparison semantics: comparisons against
`undefined` or `NaN` are false. -/
def jsNumGtZero : Option JSNum → Bool
  | none => false
  | some .nan => false
  | some (.inf pos) => pos
  | some (.fin q) => decide (0 < q)

/-- `Number.isFinite(timeout)`. -/
def jsNumFinite : Option JSNum → Bool
  | some (.fin _) => true
  | _ => false

/-- `timeout <= 2147483647` with JavaScript comparison semantics. -/
def jsNumLeTimerMax : Option JSNum → Bool
  | none => false
  | some .nan => false
  | some (.inf pos) => !pos
  | some (.fin q) => decide (q ≤ timerMax)

/-- Line 184: the guard under which the abort controller and the timer are
created. -/
def timeoutValid (t : Option JSNum) : Bool :=
  jsNumTruthy t && jsNumGtZero t && jsNumFinite t && jsNumLeTimerMax t

/-- The value of the `timeout` variable as a JavaScript value (used when it is
stored into the timeout error's context and interpolated into its message). -/
def optNumVal : Option JSNum → JSVal
  | none => .undefined
  | some n => .num n

/-! ## Objects and the URL-object type guard -/

/-- A JavaScript object, as its list of own enumerable properties in
declaration order (keys are assumed distinct, as they are for object
literals). -/
abbrev JSObject := List (String × JSVal)

/-- Property access `val[k]`: absent properties read as `undefined`. -/
def objGet (o : JSObject) (k : String) : JSVal :=
  match o.lookup k with
  | some v => v
  | none => .undefined

/-- Modelled from the external inferred-types helper `isUndefined`. -/
def isUndefined : JSVal → Bool
  | .undefined => true
  | _ => false

/-- Modelled from the external inferred-types helper `isString`. -/
def isString : JSVal → Bool
  | .str _ => true
  | _ => false

/-- Modelled from the external inferred-types helper `isNumberLike`: numbers
and numeric strings.  (The exact numeric-string grammar does not matter for
any claim; digit strings are a faithful core.) -/
def isNumberLike : JSVal → Bool
  | .num _ => true
  | .str s => decide (s ≠ "") && s.all (fun c => c.isDigit)
  | _ => false

/-- The `keys` constant of src/type-guards/isUrlObject.ts. -/
def keys : List String := ["port", "path", "pathname", "hostname", "origin", "search"]

/-- Faithful embedding of `isUrlObject` (src/type-guards/isUrlObject.ts,
lines 13–25), for an argument already known to be a plain object (the
`isObject(val)` conjunct; non-objects are handled at the call sites).
Note the first conjunct is exactly what the source writes:
`Object.keys(val).every(i => keys.includes(val[i] as any))` — it tests the
property VALUES against the key list (`val[i]`, not `i`). -/
def isUrlObject (val : JSObject) : Bool :=
  (val.all fun kv =>
    match kv.2 with
    | .str s => keys.contains s
    | _ => false)
  && (isUndefined (objGet val "port") || isNumberLike (objGet val "port"))
  && (isUndefined (objGet val "path") || isString (objGet val "path"))
  && (isUndefined (objGet val "pathname") || isString (objGet val "pathname"))
  && (isUndefined (objGet val "hostname") || isString (objGet val "hostname"))
  && (isUndefined (objGet val "origin") || isString (objGet val "origin"))

/-- Modelled from the spec: a "structured host/path object" is an object whose
own keys all come from \x7bport, path, pathname, hostname, origin, search\x7d
and whose present fields have the declared types (port number-like, the rest
strings).  This is the evident intent of `isUrlObject` (its TypeScript
predicate type `val is UrlObject`), written with `keys.includes(i)` where the
source mistakenly wrote `keys.includes(val[i])`. -/
def isUrlObjectSpec (val : JSObject) : Bool :=
  (val.all fun kv => keys.contains kv.1)
  && (isUndefined (objGet val "port") || isNumberLike (objGet val "port"))
  && (isUndefined (objGet val "path") || isString (objGet val "path"))
  && (isUndefined (objGet val "pathname") || isString (objGet val "pathname"))
  && (isUndefined (objGet val "hostname") || isString (objGet val "hostname"))
  && (isUndefined (objGet val "origin") || isString (objGet val "origin"))

/-- The first argument of a call: a string, a `URL` instance (carrying the
string its `toString` produces), a plain object, or some other primitive
value. -/
inductive UrlArg where
  | str (s : String) : UrlArg
  | urlInst (href : String) : UrlArg
  | obj (o : JSObject) : UrlArg
  | other (v : JSVal) : UrlArg
deriving DecidableEq

/-- Lines 171–177 of src/request.ts: the canonical string form of the target
used in messages and context.  A string is used as-is; a `URL` instance is
serialized via `toString`; an object recognized by `isUrlObject` is rendered
as `hostname:port/path` with port defaulting to 80; anything else becomes the
empty string. -/
def urlToString : UrlArg → String
  | .str s => s
  | .urlInst href => href
  | .obj o =>
      if isUrlObject o then
        jsTemplate (objGet o "hostname") ++ ":"
          ++ jsTemplate (jsOr (objGet o "port") (.num (.fin 80))) ++ "/"
          ++ jsTemplate (objGet o "path")
      else ""
  | .other _ => ""

/-! ## Options, signals, responses, environment -/

/-- A caller-supplied AbortSignal, as far as the embedded code reads it:
whether it is already aborted when the call starts. -/
structure Signal where
  aborted : Bool
deriving DecidableEq

/-- `GotchaRequestOptions` (src/types.ts): the undici options plus the extra
`timeout` field.  `method` is `.undefined` when absent; `rest` carries every
other undici option opaquely. -/
structure GotchaRequestOptions where
  timeout : Option JSNum := none
  signal : Option Signal := none
  method : JSVal := .undefined
  rest : List (String × JSVal) := []
deriving DecidableEq

/-- The `signal` property of the options object handed to the transport:
absent, the caller's own signal passed through untouched, the internal
timeout controller's signal (line 235), or the composed signal of
`combinedController` (line 232) which merges the caller's signal with the
internal one. -/
inductive PassedSignal where
  | absent : PassedSignal
  | external (s : Signal) : PassedSignal
  | internalTimeout : PassedSignal
  | combined (s : Signal) : PassedSignal
deriving DecidableEq

/-- Whether the signal handed to the transport is already aborted at the
moment the transport is invoked.  The internal controller's signal is fresh;
a composed signal is pre-aborted exactly when the caller's signal already was
(lines 206–209). -/
def PassedSignal.abortedAtStart : PassedSignal → Bool
  | .absent => false
  | .external s => s.aborted
  | .internalTimeout => false
  | .combined s => s.aborted

/-- The options object handed to the transport (`undiciOptions` after the
signal rewiring).  There is no `timeout` field: the destructuring on line 168
removes it. -/
structure UndiciOptions where
  signal : PassedSignal
  method : JSVal
  rest : List (String × JSVal)
deriving DecidableEq

/-- A transport response (`NetworkResponse`): status code plus the fields the
classifier copies into error contexts.  `opaq` models the response's
`opaque` passthrough field. -/
structure NetworkResponse where
  statusCode : ℤ
  headers : JSVal
  body : JSVal
  context : JSVal
  opaq : JSVal
  trailers : JSVal
deriving DecidableEq

/-- What the transport call does: resolve with a response, or reject with
some value. -/
inductive TransportOutcome where
  | success (r : NetworkResponse) : TransportOutcome
  | failure (e : JSVal) : TransportOutcome
deriving DecidableEq

/-- One call's interaction with its external collaborators: the two clock
readings (`Date.now()` at entry and in the catch handler), the transport's
outcome, and whether the armed timer fires while the transport call is
pending. -/
structure Env where
  startTime : ℤ
  now : ℤ
  transport : TransportOutcome
  timerFires : Bool
deriving DecidableEq

/-! ## Tagged errors -/

/-- Modelled from the spec: the tagged-error factory (the external kind-error
collaborator) builds "a tagged value with a kind label and structured
payload"; membership is later tested by kind.  `context` is the structured
payload the call site passes; the factory's base context
(`\x7b library: "gotcha" \x7d`) rides along in `library`. -/
structure KindError where
  kind : String
  message : String
  context : List (String × JSVal)
  library : String := "gotcha"
deriving DecidableEq

/-- `Redirection` from src/errors.ts (kind label `redirection`). -/
def Redirection (msg : String) (ctx : List (String × JSVal)) : KindError :=
  ⟨"redirection", msg, ctx, "gotcha"⟩

/-- `ClientError` from src/errors.ts (kind label `client-error`). -/
def ClientError (msg : String) (ctx : List (String × JSVal)) : KindError :=
  ⟨"client-error", msg, ctx, "gotcha"⟩

/-- `ServerError` from src/errors.ts (kind label `server-error`). -/
def ServerError (msg : String) (ctx : List (String × JSVal)) : KindError :=
  ⟨"server-error", msg, ctx, "gotcha"⟩

/-- `Timeout` from src/errors.ts (kind label `timeout`). -/
def Timeout (msg : String) (ctx : List (String × JSVal)) : KindError :=
  ⟨"timeout", msg, ctx, "gotcha"⟩

/-- How one call of the executor resolves: the transport response returned
unchanged, a returned error value, or a thrown (escalated) value. -/
inductive RequestResult where
  | ok (r : NetworkResponse) : RequestResult
  | err (e : KindError) : RequestResult
  | thrown (e : JSVal) : RequestResult
deriving DecidableEq

/-! ## The request executor (src/request.ts, timeout-aware variant) -/

/-- The context object literal passed to `Redirection` / `ClientError` /
`ServerError` (lines 253–260, 267–274, 281–288), field for field and in
source order.  `context` and `trailers` go through `x || undefined`. -/
def httpErrorContext (req : NetworkResponse) : List (String × JSVal) :=
  [("headers", req.headers),
   ("code", .num (.fin (req.statusCode : ℚ))),
   ("body", req.body),
   ("context", orUndefined req.context),
   ("opaque", req.opaq),
   ("trailers", orUndefined req.trailers)]

/-- Lines 247–290: the status-code classifier applied to a transport
response. -/
def classifyResponse (urlString : String) (req : NetworkResponse) : RequestResult :=
  if req.statusCode < 300 then
    .ok req
  else if req.statusCode < 400 then
    .err (Redirection
      ("A redirection took place while requesting the URL: \x27" ++ urlString ++ "\x27.")
      (httpErrorContext req))
  else if req.statusCode < 500 then
    .err (ClientError
      ("A client-based network error happened requesting the URL: \x27" ++ urlString ++ "\x27.")
      (httpErrorContext req))
  else
    .err (ServerError
      ("A server-based network error happened requesting the URL: \x27" ++ urlString ++ "\x27.")
      (httpErrorContext req))

/-- `options || \x7b\x7d` followed by the destructuring on line 168. -/
def effOptions (options : Option GotchaRequestOptions) : GotchaRequestOptions :=
  options.getD {}

/-- Lines 206–209: when a valid timeout is configured and the caller's signal
is already aborted at call time, `combinedController.abort()` and `cleanup()`
run during setup — so the timer is cleared before the transport call. -/
def preAbortedOf (opts : GotchaRequestOptions) : Bool :=
  timeoutValid opts.timeout
    && (match opts.signal with
        | some s => s.aborted
        | none => false)

/-- Lines 193–236: the `signal` property handed to the transport.  With a
valid timeout it is the internal controller's signal, or the composed signal
when the caller supplied one; otherwise the caller's options pass through
untouched. -/
def passedSignalOf (opts : GotchaRequestOptions) : PassedSignal :=
  if timeoutValid opts.timeout then
    match opts.signal with
    | some s => .combined s
    | none => .internalTimeout
  else
    match opts.signal with
    | some s => .external s
    | none => .absent

/-- The options object handed to the transport on line 240: the caller's
options with `timeout` removed (line 168) and `signal` possibly rewired. -/
def undiciOptionsOf (opts : GotchaRequestOptions) : UndiciOptions :=
  ⟨passedSignalOf opts, opts.method, opts.rest⟩

/-- Whether the internal controller's signal is aborted when the catch
handler inspects it (line 299).  The only `abort()` on the internal
controller is the timer callback (lines 187–191), so this holds exactly when
the timer was armed, was not cleared during setup, and fired. -/
def internalAbortedOf (opts : GotchaRequestOptions) (env : Env) : Bool :=
  timeoutValid opts.timeout && !preAbortedOf opts && env.timerFires

/-- `clearTimeout` (lines 199–203, 243–245, 294–296): after clearing, no
timer of this call is pending. -/
def clearTimer (_pending : Bool) : Bool := false

/-- The observable effects of one call. -/
structure Trace where
  controllerCreated : Bool
  timerArmed : Bool
  timerClearedBeforeFetch : Bool
  internalSignalAborted : Bool
  transportInvoked : Bool
  transportOptions : UndiciOptions
  timerPending : Bool
deriving DecidableEq

/-- The effect trace of one call.  The transport is invoked on every path
(line 240 sits at the top of the `try` block, even when the composed signal
is already aborted).  Whatever the path, the pending timer — if it neither
fired nor was cleared during setup — is cleared by the `clearTimeout` on the
success path (243–245) or in the catch handler (294–296) before the call
resolves. -/
def requestTrace (opts : GotchaRequestOptions) (env : Env) : Trace where
  controllerCreated := timeoutValid opts.timeout
  timerArmed := timeoutValid opts.timeout
  timerClearedBeforeFetch := preAbortedOf opts
  internalSignalAborted := internalAbortedOf opts env
  transportInvoked := true
  transportOptions := undiciOptionsOf opts
  timerPending :=
    clearTimer (timeoutValid opts.timeout && !preAbortedOf opts && !env.timerFires)

/-- The catch handler, lines 292–315: clear the timer; if the failure is
attributable to the internal timeout signal (`controller?.signal.aborted &&
timeout`, line 299), return a `Timeout` error value built from the elapsed
time, the configured timeout, the target string and the request method;
otherwise re-throw the failure unmodified (line 314). -/
def catchHandler (urlString : String) (opts : GotchaRequestOptions) (env : Env)
    (e : JSVal) : RequestResult :=
  if internalAbortedOf opts env && jsNumTruthy opts.timeout then
    .err (Timeout
      ("Request timed out after " ++ toString (env.now - env.startTime)
        ++ "ms (limit: " ++ jsTemplate (optNumVal opts.timeout)
        ++ "ms) while requesting the URL: \x27" ++ urlString ++ "\x27.")
      [("url", .str urlString),
       ("timeout", optNumVal opts.timeout),
       ("elapsedTime", .num (.fin ((env.now - env.startTime : ℤ) : ℚ))),
       ("method", jsOr opts.method (.str "GET"))])
  else
    .thrown e

/-- How one call resolves (the body of `request`, lines 239–315): the
transport's outcome is classified on success and handed to the catch handler
on failure. -/
def requestResult (url : UrlArg) (options : Option GotchaRequestOptions)
    (env : Env) : RequestResult :=
  match env.transport with
  | .success req => classifyResponse (urlToString url) (req)
  | .failure e => catchHandler (urlToString url) (effOptions options) env e

/-- The embedded `request` function (src/request.ts lines 161–316): the
resolution value together with the call's effect trace. -/
def request (url : UrlArg) (options : Option GotchaRequestOptions)
    (env : Env) : RequestResult × Trace :=
  (requestResult url options env, requestTrace (effOptions options) env)

/-! ## The dispatcher (src/gotcha.ts, src/type-guards/isGotchaRequest.ts) -/

/-- Faithful embedding of `isGotchaRequest` applied to the call's argument
list.  `isArray(val)` always holds for the rest-parameter array, so the guard
reduces to the classification of the first argument:
`isString(val[0]) || val[0] instanceof URL || isUrlObject(val[0])`.
(`isUrlObject` begins with `isObject`, so it is false on primitives.) -/
def isGotchaRequest (first : UrlArg) : Bool :=
  match first with
  | .str _ => true
  | .urlInst _ => true
  | .obj o => isUrlObject o
  | .other _ => false

/-- The dispatcher's result: the executor's result forwarded unchanged, or
the thrown `Error("Configure type not yet implemented")`. -/
inductive GotchaOutcome where
  | dispatched (res : RequestResult × Trace) : GotchaOutcome
  | thrownNotImplemented : GotchaOutcome
deriving DecidableEq

/-- The embedded `gotcha` dispatcher (src/gotcha.ts): route the argument list
to `request` when `isGotchaRequest` accepts it, else throw the
"not implemented" error. -/
def gotcha (first : UrlArg) (options : Option GotchaRequestOptions)
    (env : Env) : GotchaOutcome :=
  if isGotchaRequest first then .dispatched (request first options env)
  else .thrownNotImplemented

/-! ## Predicate helpers -/

/-- An Outcome as the spec uses the word: the per-call result value, success
payload or tagged error value. -/
inductive Outcome where
  | ok (r : NetworkResponse) : Outcome
  | err (e : KindError) : Outcome
deriving DecidableEq

/-- Modelled from the spec: `isError` from the kind-error collaborator —
membership test for tagged error values. -/
def isError : Outcome → Bool
  | .err _ => true
  | .ok _ => false

/-- `isOk` (src/type-guards): `!isError(val)`. -/
def isOk (val : Outcome) : Bool := !isError val

/-- Modelled from the spec: `K.is(val)` — "is this error value of kind K",
a test of the kind tag. -/
def kindIs (k : String) : Outcome → Bool
  | .err e => e.kind == k
  | .ok _ => false

/-- `wasRedirected` (src/type-guards): `Redirection.is(val)`. -/
def wasRedirected (val : Outcome) : Bool := kindIs "redirection" val

/-- `wasClientError` (src/type-guards/wasClientError.ts): `ClientError.is(val)`. -/
def wasClientError (val : Outcome) : Bool := kindIs "client-error" val

/-- `wasServerError` (src/type-guards/wasServerError.ts): `ServerError.is(val)`. -/
def wasServerError (val : Outcome) : Bool := kindIs "server-error" val

/-- `timedOut` (src/type-guards): `Timeout.is(val)`. -/
def timedOut (val : Outcome) : Bool := kindIs "timeout" val

/-- Substring containment, used to state what an error message must embed. -/
def containsStr (s sub : String) : Prop := ∃ a b, s = a ++ sub ++ b

/-- The four primary error kinds. -/
def kindOfFour (e : KindError) : Prop :=
  e.kind = "redirection" ∨ e.kind = "client-error"
    ∨ e.kind = "server-error" ∨ e.kind = "timeout"

/-! ## Concrete inputs used by witnesses and counterexamples -/

/-- A 301 transport response with ordinary (truthy) field values. -/
def resp301 : NetworkResponse := ⟨301, .obj 1, .obj 2, .obj 3, .str "op", .obj 4⟩

/-- An environment whose transport resolves with `resp301`. -/
def env301 : Env := ⟨0, 0, .success resp301, false⟩

/-- The error value the classifier builds for `resp301` requested at
`https://example.com/`. -/
def redir301 : KindError :=
  Redirection
    ("A redirection took place while requesting the URL: \x27https://example.com/\x27.")
    (httpErrorContext resp301)

/-- Options with a valid 100 ms timeout. -/
def opts100 : GotchaRequestOptions := { timeout := some (.fin 100) }

/-- An environment where the armed timer fires and the transport rejects. -/
def envTO : Env := ⟨0, 150, .failure (.str "AbortError"), true⟩

/-- The timeout error value the catch handler builds for `opts100` and
`envTO` at `https://x.io/`. -/
def timeoutErr0 : KindError :=
  Timeout
    ("Request timed out after 150ms (limit: 100ms) while requesting the URL: \x27https://x.io/\x27.")
    [("url", .str "https://x.io/"),
     ("timeout", .num (.fin 100)),
     ("elapsedTime", .num (.fin 150)),
     ("method", .str "GET")]

/-- Options with `timeout: NaN`. -/
def optsNaN : GotchaRequestOptions := { timeout := some .nan }

/-- Options with a valid 500 ms timeout and an already-aborted caller
signal. -/
def preOpts : GotchaRequestOptions := { timeout := some (.fin 500), signal := some ⟨true⟩ }

/-- An environment whose transport rejects immediately (as undici does when
handed an already-aborted signal); the cleared timer never fires. -/
def preEnv : Env := ⟨0, 1, .failure (.str "AbortError"), false⟩

/-- An environment with a plain transport fault and no timer activity. -/
def envFail : Env := ⟨0, 5, .failure (.str "ECONNREFUSED"), false⟩

/-- A structured host/path object in the sense of the spec. -/
def hostPathObj : JSObject := [("hostname", .str "example.com"), ("path", .str "/status")]

/-! ## Helper lemmas -/

/-- String append is associative (used to exhibit substrings of message
literals). -/
theorem strAppendAssoc (a b c : String) : (a ++ b) ++ c = a ++ (b ++ c) := by
  show String.append (String.append a b) c = String.append a (String.append b c)
  cases a; cases b; cases c
  simp [String.append]

/-- On transport success the call resolves with the classifier's verdict. -/
theorem requestResult_success (url : UrlArg) (options : Option GotchaRequestOptions)
    (env : Env) (r : NetworkResponse) (h : env.transport = .success r) :
    (request url options env).1 = classifyResponse (urlToString url) r := by
  show requestResult url options env = _
  unfold requestResult
  rw [h]

/-- On transport failure the call resolves with the catch handler's
verdict. -/
theorem requestResult_failure (url : UrlArg) (options : Option GotchaRequestOptions)
    (env : Env) (e : JSVal) (h : env.transport = .failure e) :
    (request url options env).1 = catchHandler (urlToString url) (effOptions options) env e := by
  show requestResult url options env = _
  unfold requestResult
  rw [h]

/-- Every error value the executor returns carries one of the four primary
kinds. -/
theorem request_err_kinds (url : UrlArg) (options : Option GotchaRequestOptions)
    (env : Env) (e : KindError)
    (h : (request url options env).1 = .err e) : kindOfFour e := by
  cases henv : env.transport with
  | success r =>
      rw [requestResult_success url options env r henv] at h
      unfold classifyResponse at h
      by_cases h1 : r.statusCode < 300
      · rw [if_pos h1] at h
        exact absurd h (by simp)
      · rw [if_neg h1] at h
        by_cases h2 : r.statusCode < 400
        · rw [if_pos h2] at h
          injection h with he
          subst he
          exact Or.inl rfl
        · rw [if_neg h2] at h
          by_cases h3 : r.statusCode < 500
          · rw [if_pos h3] at h
            injection h with he
            subst he
            exact Or.inr (Or.inl rfl)
          · rw [if_neg h3] at h
            injection h with he
            subst he
            exact Or.inr (Or.inr (Or.inl rfl))
  | failure e0 =>
      rw [requestResult_failure url options env e0 henv] at h
      unfold catchHandler at h
      by_cases hc : (internalAbortedOf (effOptions options) env
          && jsNumTruthy (effOptions options).timeout) = true
      · rw [if_pos hc] at h
        injection h with he
        subst he
        exact Or.inr (Or.inr (Or.inr rfl))
      · rw [if_neg hc] at h
        exact absurd h (by simp)

/-! ## Claim theorems -/

/-- C1: For every transport response with integer status code c, the request
function returns the transport response itself when c < 300; a Redirection
error with context.code = c when 300 ≤ c < 400; a ClientError error with
context.code = c when 400 ≤ c < 500; and a ServerError error with
context.code = c when c ≥ 500, with no upper bound — half-open ranges
throughout. -/
theorem c1_status_classification (url : UrlArg) (options : Option GotchaRequestOptions)
    (env : Env) (r : NetworkResponse) (h : env.transport = .success r) :
    (r.statusCode < 300 → (request url options env).1 = .ok r) ∧
    (300 ≤ r.statusCode → r.statusCode < 400 →
      ∃ e, (request url options env).1 = .err e ∧ e.kind = "redirection" ∧
        e.context.lookup "code" = some (.num (.fin (r.statusCode : ℚ)))) ∧
    (400 ≤ r.statusCode → r.statusCode < 500 →
      ∃ e, (request url options env).1 = .err e ∧ e.kind = "client-error" ∧
        e.context.lookup "code" = some (.num (.fin (r.statusCode : ℚ)))) ∧
    (500 ≤ r.statusCode →
      ∃ e, (request url options env).1 = .err e ∧ e.kind = "server-error" ∧
        e.context.lookup "code" = some (.num (.fin (r.statusCode : ℚ)))) := by
  have hreq := requestResult_success url options env r h
  refine ⟨?_, ?_, ?_, ?_⟩
  · intro hlt
    rw [hreq]
    unfold classifyResponse
    rw [if_pos hlt]
  · intro hge hlt
    rw [hreq]
    unfold classifyResponse
    rw [if_neg (by omega), if_pos hlt]
    exact ⟨_, rfl, rfl, rfl⟩
  · intro hge hlt
    rw [hreq]
    unfold classifyResponse
    rw [if_neg (by omega), if_neg (by omega), if_pos hlt]
    exact ⟨_, rfl, rfl, rfl⟩
  · intro hge
    rw [hreq]
    unfold classifyResponse
    rw [if_neg (by omega), if_neg (by omega), if_neg (by omega)]
    exact ⟨_, rfl, rfl, rfl⟩

/-- C1 witness: a concrete 301 response yields a Redirection error with
context.code = 301. -/
theorem c1_witness :
    ∃ e, (request (.str "https://example.com/") none env301).1 = .err e ∧
      e.kind = "redirection" ∧
      e.context.lookup "code" = some (.num (.fin (301 : ℚ))) :=
  (c1_status_classification (.str "https://example.com/") none env301 resp301 rfl).2.1
    (by decide) (by decide)

/-- C4: On every exit path of the request function — transport success of any
status class, returned Timeout error, and escalated transport failure — the
timer is armed exactly when a valid timeout is configured, and no timer
belonging to the call remains pending when the call resolves. -/
theorem c4_timer_cleanup (url : UrlArg) (options : Option GotchaRequestOptions)
    (env : Env) :
    (request url options env).2.timerPending = false ∧
    (request url options env).2.timerArmed = timeoutValid (effOptions options).timeout :=
  ⟨rfl, rfl⟩

/-- C2: For every timeout value that is non-positive, NaN, infinite, or
greater than 2147483647 ms, the request function arms no timer and creates no
internal abort controller, the call resolves only via the transport's own
outcome, and the result is never a Timeout error value. -/
theorem c2_disabled_timeout (url : UrlArg) (options : Option GotchaRequestOptions)
    (env : Env) (t : JSNum)
    (ht : (effOptions options).timeout = some t)
    (hdis : t = .nan ∨ t = .inf true ∨ t = .inf false ∨
      ∃ q, t = .fin q ∧ (q ≤ 0 ∨ timerMax < q)) :
    (request url options env).2.timerArmed = false ∧
    (request url options env).2.controllerCreated = false ∧
    (∀ r, env.transport = .success r →
      (request url options env).1 = classifyResponse (urlToString url) r) ∧
    (∀ e, env.transport = .failure e → (request url options env).1 = .thrown e) ∧
    (∀ e, (request url options env).1 = .err e → e.kind ≠ "timeout") := by
  have hv : timeoutValid (effOptions options).timeout = false := by
    rw [ht]
    rcases hdis with rfl | rfl | rfl | ⟨q, rfl, hq⟩
    · rfl
    · rfl
    · rfl
    · simp only [timeoutValid, jsNumTruthy, jsNumGtZero, jsNumFinite, jsNumLeTimerMax,
        Bool.and_eq_false_iff, decide_eq_false_iff_not]
      rcases hq with hq | hq
      · exact Or.inl (Or.inl (Or.inr (by linarith)))
      · exact Or.inr (by linarith)
  refine ⟨?_, ?_, ?_, ?_, ?_⟩
  · show (requestTrace (effOptions options) env).timerArmed = false
    simp [requestTrace, hv]
  · show (requestTrace (effOptions options) env).controllerCreated = false
    simp [requestTrace, hv]
  · intro r hr
    exact requestResult_success url options env r hr
  · intro e he
    rw [requestResult_failure url options env e he]
    simp [catchHandler, internalAbortedOf, hv]
  · intro e he
    cases henv : env.transport with
    | success r =>
        rw [requestResult_success url options env r henv] at he
        unfold classifyResponse at he
        by_cases h1 : r.statusCode < 300
        · rw [if_pos h1] at he
          exact absurd he (by simp)
        · rw [if_neg h1] at he
          by_cases h2 : r.statusCode < 400
          · rw [if_pos h2] at he
            injection he with he2
            subst he2
            exact (by decide : ("redirection" : String) ≠ "timeout")
          · rw [if_neg h2] at he
            by_cases h3 : r.statusCode < 500
            · rw [if_pos h3] at he
              injection he with he2
              subst he2
              exact (by decide : ("client-error" : String) ≠ "timeout")
            · rw [if_neg h3] at he
              injection he with he2
              subst he2
              exact (by decide : ("server-error" : String) ≠ "timeout")
    | failure e0 =>
        rw [requestResult_failure url options env e0 henv] at he
        simp [catchHandler, internalAbortedOf, hv] at he

/-- C2 witness: with `timeout: NaN`, a transport fault is re-thrown. -/
theorem c2_witness :
    (request (.str "a") (some optsNaN) envTO).1 = .thrown (.str "AbortError") :=
  (c2_disabled_timeout (.str "a") (some optsNaN) envTO .nan rfl
    (Or.inl rfl)).2.2.2.1 (.str "AbortError") rfl

/-- C5: The four error kinds are only ever returned as values, never thrown —
every value the executor throws is exactly the transport's own failure,
unmodified — and every transport failure not attributable to the internal
timeout signal having fired (i.e. the internal controller's signal is not
aborted, or no timeout was configured) is re-thrown to the caller rather than
converted to one of the four kinds. -/
theorem c5_error_propagation (url : UrlArg) (options : Option GotchaRequestOptions)
    (env : Env) :
    (∀ e, (request url options env).1 = .thrown e → env.transport = .failure e) ∧
    (∀ e, env.transport = .failure e →
      ¬((request url options env).2.internalSignalAborted = true ∧
        jsNumTruthy (effOptions options).timeout = true) →
      (request url options env).1 = .thrown e) ∧
    (∀ e, (request url options env).1 = .err e → kindOfFour e) := by
  refine ⟨?_, ?_, ?_⟩
  · intro e he
    cases henv : env.transport with
    | success r =>
        rw [requestResult_success url options env r henv] at he
        unfold classifyResponse at he
        by_cases h1 : r.statusCode < 300
        · rw [if_pos h1] at he
          exact absurd he (by simp)
        · rw [if_neg h1] at he
          by_cases h2 : r.statusCode < 400
          · rw [if_pos h2] at he
            exact absurd he (by simp)
          · rw [if_neg h2] at he
            by_cases h3 : r.statusCode < 500
            · rw [if_pos h3] at he
              exact absurd he (by simp)
            · rw [if_neg h3] at he
              exact absurd he (by simp)
    | failure e0 =>
        rw [requestResult_failure url options env e0 henv] at he
        unfold catchHandler at he
        by_cases hc : (internalAbortedOf (effOptions options) env
            && jsNumTruthy (effOptions options).timeout) = true
        · rw [if_pos hc] at he
          exact absurd he (by simp)
        · rw [if_neg hc] at he
          injection he with he2
          subst he2
          rfl
  · intro e he hnc
    rw [requestResult_failure url options env e he]
    unfold catchHandler
    have hcond : (internalAbortedOf (effOptions options) env
        && jsNumTruthy (effOptions options).timeout) = false := by
      cases h1 : internalAbortedOf (effOptions options) env
      · simp
      · cases h2 : jsNumTruthy (effOptions options).timeout
        · simp
        · exact absurd ⟨h1, h2⟩ hnc
    rw [hcond]
    simp
  · intro e he
    exact request_err_kinds url options env e he

/-- C5 witness: an unclassifiable transport fault (no timeout configured) is
re-thrown unmodified. -/
theorem c5_witness :
    (request (.str "https://example.com/") none envFail).1 = .thrown (.str "ECONNREFUSED") :=
  (c5_error_propagation (.str "https://example.com/") none envFail).2.1
    (.str "ECONNREFUSED") rfl (by decide)

/-- C6 counterexample: with a valid 500 ms timeout and a caller signal that is
already aborted at call start, the transport IS invoked — the `fetch` on line
240 always runs, merely carrying the already-aborted composed signal — so the
claim's "the operation does not proceed to the transport call at all / the
transport is never invoked" is false on the code. -/
theorem c6_counterexample :
    timeoutValid preOpts.timeout = true ∧
    preOpts.signal = some ⟨true⟩ ∧
    (request (.str "https://example.com/") (some preOpts) preEnv).2.transportInvoked = true := by
  decide

/-- C6 amended: for every call with a valid armed timeout and a caller signal
already aborted at call start, the timer is cleared before the transport call
and the transport IS invoked, but with the composed signal already in the
aborted state; the transport's resulting failure is re-thrown as a fatal
condition — never returned, and in particular never a Timeout error value. -/
theorem c6_preaborted_signal (url : UrlArg) (options : Option GotchaRequestOptions)
    (env : Env) (s : Signal) (e : JSVal)
    (hv : timeoutValid (effOptions options).timeout = true)
    (hs : (effOptions options).signal = some s)
    (ha : s.aborted = true)
    (hf : env.transport = .failure e) :
    (request url options env).2.transportInvoked = true ∧
    (request url options env).2.transportOptions.signal = .combined s ∧
    (request url options env).2.transportOptions.signal.abortedAtStart = true ∧
    (request url options env).2.timerClearedBeforeFetch = true ∧
    (request url options env).1 = .thrown e := by
  have hsig : (request url options env).2.transportOptions.signal = .combined s := by
    show passedSignalOf (effOptions options) = _
    unfold passedSignalOf
    rw [if_pos hv, hs]
  have hpre : preAbortedOf (effOptions options) = true := by
    simp [preAbortedOf, hv, hs, ha]
  have hia : internalAbortedOf (effOptions options) env = false := by
    unfold internalAbortedOf
    rw [hpre]
    simp
  refine ⟨rfl, hsig, ?_, ?_, ?_⟩
  · rw [hsig]
    show s.aborted = true
    exact ha
  · show preAbortedOf (effOptions options) = true
    exact hpre
  · rw [requestResult_failure url options env e hf]
    unfold catchHandler
    rw [hia]
    simp

/-- C6 amended witness: the concrete pre-aborted call re-throws the
transport's failure. -/
theorem c6_preaborted_signal_witness :
    (request (.str "u") (some preOpts) preEnv).2.transportInvoked = true ∧
    (request (.str "u") (some preOpts) preEnv).2.transportOptions.signal = .combined ⟨true⟩ ∧
    (request (.str "u") (some preOpts) preEnv).2.transportOptions.signal.abortedAtStart = true ∧
    (request (.str "u") (some preOpts) preEnv).2.timerClearedBeforeFetch = true ∧
    (request (.str "u") (some preOpts) preEnv).1 = .thrown (.str "AbortError") :=
  c6_preaborted_signal (.str "u") (some preOpts) preEnv ⟨true⟩ (.str "AbortError")
    (by decide) rfl rfl rfl

/-- C3: Whenever the request function returns a Timeout error value, its
message contains the measured elapsed time in milliseconds, the configured
timeout in milliseconds, and the canonical string form of the target, and its
context consists exactly of the request URL string, the configured timeout,
the measured elapsed time (now minus recorded start time), and the request
method, defaulting to GET when unspecified. -/
theorem c3_timeout_error_shape (url : UrlArg) (options : Option GotchaRequestOptions)
    (env : Env) (e : KindError)
    (h : (request url options env).1 = .err e)
    (hk : e.kind = "timeout") :
    containsStr e.message (toString (env.now - env.startTime)) ∧
    containsStr e.message (jsTemplate (optNumVal (effOptions options).timeout)) ∧
    containsStr e.message (urlToString url) ∧
    e.context =
      [("url", .str (urlToString url)),
       ("timeout", optNumVal (effOptions options).timeout),
       ("elapsedTime", .num (.fin ((env.now - env.startTime : ℤ) : ℚ))),
       ("method", jsOr (effOptions options).method (.str "GET"))] := by
  cases henv : env.transport with
  | success r =>
      rw [requestResult_success url options env r henv] at h
      unfold classifyResponse at h
      by_cases h1 : r.statusCode < 300
      · rw [if_pos h1] at h
        exact absurd h (by simp)
      · rw [if_neg h1] at h
        by_cases h2 : r.statusCode < 400
        · rw [if_pos h2] at h
          injection h with he2
          subst he2
          exact absurd hk (by decide : ¬ ("redirection" : String) = "timeout")
        · rw [if_neg h2] at h
          by_cases h3 : r.statusCode < 500
          · rw [if_pos h3] at h
            injection h with he2
            subst he2
            exact absurd hk (by decide : ¬ ("client-error" : String) = "timeout")
          · rw [if_neg h3] at h
            injection h with he2
            subst he2
            exact absurd hk (by decide : ¬ ("server-error" : String) = "timeout")
  | failure e0 =>
      rw [requestResult_failure url options env e0 henv] at h
      unfold catchHandler at h
      by_cases hc : (internalAbortedOf (effOptions options) env
          && jsNumTruthy (effOptions options).timeout) = true
      · rw [if_pos hc] at h
        injection h with he2
        subst he2
        refine ⟨?_, ?_, ?_, rfl⟩
        · exact ⟨"Request timed out after ",
            "ms (limit: " ++ jsTemplate (optNumVal (effOptions options).timeout)
              ++ "ms) while requesting the URL: \x27" ++ urlToString url ++ "\x27.",
            by simp [Timeout, strAppendAssoc]⟩
        · exact ⟨"Request timed out after " ++ toString (env.now - env.startTime)
              ++ "ms (limit: ",
            "ms) while requesting the URL: \x27" ++ urlToString url ++ "\x27.",
            by simp [Timeout, strAppendAssoc]⟩
        · exact ⟨"Request timed out after " ++ toString (env.now - env.startTime)
              ++ "ms (limit: " ++ jsTemplate (optNumVal (effOptions options).timeout)
              ++ "ms) while requesting the URL: \x27",
            "\x27.",
            by simp [Timeout, strAppendAssoc]⟩
      · rw [if_neg hc] at h
        exact absurd h (by simp)

/-- C3 witness: the concrete timeout error for a 100 ms timeout that fired
after 150 ms carries message and context as claimed. -/
theorem c3_witness :
    (request (.str "https://x.io/") (some opts100) envTO).1 = .err timeoutErr0 ∧
    (containsStr timeoutErr0.message (toString (envTO.now - envTO.startTime)) ∧
     containsStr timeoutErr0.message
       (jsTemplate (optNumVal (effOptions (some opts100)).timeout)) ∧
     containsStr timeoutErr0.message (urlToString (.str "https://x.io/")) ∧
     timeoutErr0.context =
       [("url", .str (urlToString (.str "https://x.io/"))),
        ("timeout", optNumVal (effOptions (some opts100)).timeout),
        ("elapsedTime", .num (.fin ((envTO.now - envTO.startTime : ℤ) : ℚ))),
        ("method", jsOr (effOptions (some opts100)).method (.str "GET"))]) :=
  ⟨by decide,
   c3_timeout_error_shape (.str "https://x.io/") (some opts100) envTO timeoutErr0
     (by decide) rfl⟩

/-- C7 counterexample: the Redirection error returned for a concrete 301
response contains no request-URL entry in its context — the URL appears only
in the message — refuting "the attached context always contains … the request
URL". -/
theorem c7_counterexample :
    (request (.str "https://example.com/") none env301).1 = .err redir301 ∧
    redir301.context.lookup "url" = none := by
  decide

/-- C7 amended: for every Redirection, ClientError and ServerError result the
attached context consists exactly of the response headers, the status code,
the body stream, the transport context and opaque values, and the trailers —
headers, code, body and opaque copied verbatim, context and trailers coerced
to undefined when falsy — with no partially-populated context; the request
URL is embedded in the message, not the context. -/
theorem c7_http_error_context (url : UrlArg) (options : Option GotchaRequestOptions)
    (env : Env) (r : NetworkResponse) (e : KindError)
    (hr : env.transport = .success r)
    (he : (request url options env).1 = .err e) :
    e.context = httpErrorContext r ∧
    e.context.lookup "headers" = some r.headers ∧
    e.context.lookup "code" = some (.num (.fin (r.statusCode : ℚ))) ∧
    e.context.lookup "body" = some r.body ∧
    e.context.lookup "opaque" = some r.opaq ∧
    e.context.lookup "context" = some (orUndefined r.context) ∧
    e.context.lookup "trailers" = some (orUndefined r.trailers) ∧
    e.context.lookup "url" = none := by
  rw [requestResult_success url options env r hr] at he
  unfold classifyResponse at he
  by_cases h1 : r.statusCode < 300
  · rw [if_pos h1] at he
    exact absurd he (by simp)
  · rw [if_neg h1] at he
    by_cases h2 : r.statusCode < 400
    · rw [if_pos h2] at he
      injection he with he2
      subst he2
      exact ⟨rfl, rfl, rfl, rfl, rfl, rfl, rfl, rfl⟩
    · rw [if_neg h2] at he
      by_cases h3 : r.statusCode < 500
      · rw [if_pos h3] at he
        injection he with he2
        subst he2
        exact ⟨rfl, rfl, rfl, rfl, rfl, rfl, rfl, rfl⟩
      · rw [if_neg h3] at he
        injection he with he2
        subst he2
        exact ⟨rfl, rfl, rfl, rfl, rfl, rfl, rfl, rfl⟩

/-- C7 amended witness: the concrete 301 error context is exactly the
six-field record built from the response. -/
theorem c7_http_error_context_witness :
    redir301.context = httpErrorContext resp301 ∧
    redir301.context.lookup "headers" = some resp301.headers ∧
    redir301.context.lookup "code" = some (.num (.fin (resp301.statusCode : ℚ))) ∧
    redir301.context.lookup "body" = some resp301.body ∧
    redir301.context.lookup "opaque" = some resp301.opaq ∧
    redir301.context.lookup "context" = some (orUndefined resp301.context) ∧
    redir301.context.lookup "trailers" = some (orUndefined resp301.trailers) ∧
    redir301.context.lookup "url" = none :=
  c7_http_error_context (.str "https://example.com/") none env301 resp301 redir301
    rfl (by decide)

/-- C8 (code bug): a structured host/path object — here
`\x7b hostname: "example.com", path: "/status" \x7d`, which the spec's
classification (and `isUrlObject`'s own declared predicate type) accepts — is
REJECTED by the shipped `isUrlObject`, because its first conjunct tests the
property values against the key list (`keys.includes(val[i])`) instead of the
keys, so the dispatcher throws the "Configure type not yet implemented" error
instead of forwarding to the request executor.  Strings and URL instances are
forwarded unchanged, and non-request first arguments do throw, as claimed. -/
theorem c8_dispatcher_bug :
    isUrlObjectSpec hostPathObj = true ∧
    isUrlObject hostPathObj = false ∧
    gotcha (.obj hostPathObj) none env301 = .thrownNotImplemented ∧
    gotcha (.str "https://example.com/") none env301 =
      .dispatched (request (.str "https://example.com/") none env301) ∧
    gotcha (.urlInst "https://example.com/") none env301 =
      .dispatched (request (.urlInst "https://example.com/") none env301) ∧
    gotcha (.other (.num (.fin 42))) none env301 = .thrownNotImplemented := by
  refine ⟨by decide, by decide, by decide, ?_, ?_, by decide⟩
  · unfold gotcha
    rw [if_pos (by decide)]
  · unfold gotcha
    rw [if_pos (by decide)]

/-- C9: Each predicate helper is a total boolean function on Outcomes: the
success check is true iff the value is not one of the four error kinds, and
each kind check is true iff its argument is an error value whose kind
discriminator equals that specific kind; every error value the executor
produces carries one of the four kinds. -/
theorem c9_predicate_helpers :
    (∀ r : NetworkResponse,
      isOk (.ok r) = true ∧ wasRedirected (.ok r) = false ∧
      wasClientError (.ok r) = false ∧ wasServerError (.ok r) = false ∧
      timedOut (.ok r) = false) ∧
    (∀ e : KindError,
      isOk (.err e) = false ∧
      (wasRedirected (.err e) = true ↔ e.kind = "redirection") ∧
      (wasClientError (.err e) = true ↔ e.kind = "client-error") ∧
      (wasServerError (.err e) = true ↔ e.kind = "server-error") ∧
      (timedOut (.err e) = true ↔ e.kind = "timeout")) ∧
    (∀ v : Outcome, (∀ e, v = .err e → kindOfFour e) →
      (isOk v = true ↔
        ¬(wasRedirected v = true ∨ wasClientError v = true ∨
          wasServerError v = true ∨ timedOut v = true))) ∧
    (∀ (url : UrlArg) (options : Option GotchaRequestOptions) (env : Env) e,
      (request url options env).1 = .err e → kindOfFour e) := by
  refine ⟨?_, ?_, ?_, ?_⟩
  · intro r
    exact ⟨rfl, rfl, rfl, rfl, rfl⟩
  · intro e
    refine ⟨rfl, ?_, ?_, ?_, ?_⟩ <;>
      simp [wasRedirected, wasClientError, wasServerError, timedOut, kindIs]
  · intro v hv
    cases v with
    | ok r =>
        simp [isOk, isError, wasRedirected, wasClientError, wasServerError,
          timedOut, kindIs]
    | err e =>
        have hk := hv e rfl
        constructor
        · intro hok
          exact absurd hok (by simp [isOk, isError])
        · intro hno
          exfalso
          apply hno
          rcases hk with h | h | h | h
          · exact Or.inl (by simp [wasRedirected, kindIs, h])
          · exact Or.inr (Or.inl (by simp [wasClientError, kindIs, h]))
          · exact Or.inr (Or.inr (Or.inl (by simp [wasServerError, kindIs, h])))
          · exact Or.inr (Or.inr (Or.inr (by simp [timedOut, kindIs, h])))
  · intro url options env e h
    exact request_err_kinds url options env e h

/-- C9 witness: the concrete redirection error satisfies the success-check
characterization. -/
theorem c9_witness :
    isOk (.err redir301) = true ↔
      ¬(wasRedirected (.err redir301) = true ∨ wasClientError (.err redir301) = true ∨
        wasServerError (.err redir301) = true ∨ timedOut (.err redir301) = true) :=
  c9_predicate_helpers.2.2.1 (.err redir301)
    (fun e h => by cases h; exact Or.inl rfl)

/-- C10: The options object handed to the transport carries every caller
option except `timeout` unchanged (the destructuring copy removes `timeout`
and leaves the caller's object untouched), and its `signal` is replaced by an
internally derived signal — the internal timeout signal, or the composed
signal when the caller supplied one — exactly when a finite timeout in
(0, 2147483647] is configured; otherwise the caller's signal (or its absence)
passes through untouched. -/
theorem c10_transport_options (url : UrlArg) (options : Option GotchaRequestOptions)
    (env : Env) :
    ((request url options env).2.transportOptions.method = (effOptions options).method) ∧
    ((request url options env).2.transportOptions.rest = (effOptions options).rest) ∧
    (timeoutValid (effOptions options).timeout = true ↔
      ∃ q, (effOptions options).timeout = some (.fin q) ∧ 0 < q ∧ q ≤ timerMax) ∧
    (timeoutValid (effOptions options).timeout = true →
      (request url options env).2.transportOptions.signal =
        (match (effOptions options).signal with
         | some s => PassedSignal.combined s
         | none => PassedSignal.internalTimeout)) ∧
    (timeoutValid (effOptions options).timeout = false →
      (request url options env).2.transportOptions.signal =
        (match (effOptions options).signal with
         | some s => PassedSignal.external s
         | none => PassedSignal.absent)) := by
  refine ⟨rfl, rfl, ?_, ?_, ?_⟩
  · cases ht : (effOptions options).timeout with
    | none => simp [timeoutValid, jsNumTruthy]
    | some t =>
        cases t with
        | nan => simp [timeoutValid, jsNumTruthy]
        | inf pos =>
            cases pos <;>
              simp [timeoutValid, jsNumTruthy, jsNumGtZero, jsNumFinite, jsNumLeTimerMax]
        | fin q =>
            simp only [timeoutValid, jsNumTruthy, jsNumGtZero, jsNumFinite,
              jsNumLeTimerMax, Bool.and_true, Bool.and_eq_true, decide_eq_true_eq,
              Option.some.injEq]
            constructor
            · rintro ⟨⟨hne, h0⟩, hle⟩
              exact ⟨q, rfl, h0, hle⟩
            · rintro ⟨q2, hq2, h0, hle⟩
              cases hq2
              exact ⟨⟨h0.ne', h0⟩, hle⟩
  · intro hv
    show passedSignalOf (effOptions options) = _
    unfold passedSignalOf
    rw [if_pos hv]
  · intro hv
    show passedSignalOf (effOptions options) = _
    unfold passedSignalOf
    rw [if_neg (by simp [hv])]

/-- C10 witness: with a valid 100 ms timeout and no caller signal, the
transport receives the internal timeout signal. -/
theorem c10_witness :
    (request (.str "u") (some opts100) envTO).2.transportOptions.signal =
      PassedSignal.internalTimeout :=
  (c10_transport_options (.str "u") (some opts100) envTO).2.2.2.1 (by decide)

end Gotcha
